import Mathlib

set_option autoImplicit false

/-!
Verification of the wiki-pages endpoint binding layer (`wikies.go`) of a
Redmine REST client.  The file shallowly embeds the Go source: each Go struct
becomes a Lean structure, the JSON struct tags become explicit
encoders/decoders following `encoding/json` semantics, and each of the six
wiki operations becomes a Lean function over an abstract transport `Context`.
The transport collaborator itself (the generic `Get`/`Put`/`Del` methods and
the `urlIncludes` helper) is not part of the given source; it is modelled
abstractly, following the spec's collaborator contract, and every operation
additionally returns the list of transport calls it issues (verb, URL,
serialized body, expected status) so that call-shape properties can be stated.
-/

/-- Minimal JSON value model for request/response bodies.  Numbers are
modelled as integers, which covers every numeric field of the wiki module
(versions and ids are Go `int`/`int64`). -/
inductive Json where
  | null : Json
  | str (s : String) : Json
  | num (n : Int) : Json
  | arr (elems : List Json) : Json
  | obj (fields : List (String × Json)) : Json

/-- Field lookup on a JSON object (first occurrence); `none` on non-objects. -/
def Json.getField (j : Json) (key : String) : Option Json :=
  match j with
  | .obj fields => fields.lookup key
  | _ => none

/-- The list of top-level keys of a JSON object (empty for non-objects). -/
def Json.keys (j : Json) : List String :=
  match j with
  | .obj fields => fields.map Prod.fst
  | _ => []

/-! ### Go `net/url` fragment

`url.URL` is used by the source with only `Path` and `RawQuery` set; the
query string is produced by `url.Values.Encode`, which percent-encodes each
key and value with `QueryEscape` and sorts by key. -/

/-- Uppercase hexadecimal digit, as used by Go's percent-encoding. -/
def hexDigitUpper (n : Nat) : Char :=
  if n < 10 then Char.ofNat (48 + n)
  else Char.ofNat (55 + n)

/-- UTF-8 byte sequence of a character (Go strings are UTF-8 byte strings;
`QueryEscape` operates byte-wise). -/
def charUtf8Bytes (c : Char) : List Nat :=
  let n := c.toNat
  if n < 0x80 then [n]
  else if n < 0x800 then
    [0xC0 + n / 0x40, 0x80 + n % 0x40]
  else if n < 0x10000 then
    [0xE0 + n / 0x1000, 0x80 + n / 0x40 % 0x40, 0x80 + n % 0x40]
  else
    [0xF0 + n / 0x40000, 0x80 + n / 0x1000 % 0x40, 0x80 + n / 0x40 % 0x40,
      0x80 + n % 0x40]

/-- UTF-8 bytes of a string. -/
def stringUtf8Bytes (s : String) : List Nat :=
  s.data.flatMap charUtf8Bytes

/-- Escaping of one byte under Go's `url.QueryEscape`: unreserved bytes
(alphanumerics and `-_.~`) pass through, space becomes `+`, everything else
becomes `%XX` with uppercase hex. -/
def goQueryEscapeByte (b : Nat) : String :=
  if (65 ≤ b && b ≤ 90) || (97 ≤ b && b ≤ 122) || (48 ≤ b && b ≤ 57)
      || b == 45 || b == 95 || b == 46 || b == 126 then
    String.singleton (Char.ofNat b)
  else if b == 32 then "+"
  else String.mk ['%', hexDigitUpper (b / 16), hexDigitUpper (b % 16)]

/-- Go's `url.QueryEscape`. -/
def goQueryEscape (s : String) : String :=
  String.join ((stringUtf8Bytes s).map goQueryEscapeByte)

/-- Go's `url.Values`: a map from key to list of values, modelled as an
association list (insertion order is irrelevant because `Encode` sorts). -/
def Values : Type := List (String × List String)

/-- The empty `url.Values{}`. -/
def Values.empty : Values := []

/-- Go's `url.Values.Add`: append the value to the key's slice. -/
def Values.add (vs : Values) (key value : String) : Values :=
  match vs with
  | [] => [(key, [value])]
  | (k, xs) :: rest =>
      if k = key then (k, xs ++ [value]) :: rest
      else (k, xs) :: Values.add rest key value

/-- Insertion step of sorting the keys, as Go's `Encode` does with
`sort.Strings`. -/
def insertByKey (x : String × List String) :
    List (String × List String) → List (String × List String)
  | [] => [x]
  | y :: ys => if x.1 ≤ y.1 then x :: y :: ys else y :: insertByKey x ys

/-- Sort an association list by key. -/
def sortByKey : List (String × List String) → List (String × List String)
  | [] => []
  | x :: xs => insertByKey x (sortByKey xs)

/-- Go's `url.Values.Encode`: keys sorted, each key/value pair rendered as
`escape(key)=escape(value)`, pairs joined by `&`. -/
def Values.encode (vs : Values) : String :=
  String.intercalate "&"
    ((sortByKey vs).map (fun kv =>
      kv.2.map (fun v => goQueryEscape kv.1 ++ "=" ++ goQueryEscape v))).flatten

/-- The fragment of Go's `url.URL` the source sets: `Path` and `RawQuery`. -/
structure URL where
  path : String
  rawQuery : String
deriving DecidableEq

/-- The query-string part of `url.URL.String()`: a `?` followed by the raw
query when it is nonempty, nothing otherwise (`ForceQuery` is never set). -/
def URL.queryString (u : URL) : String :=
  if u.rawQuery = "" then "" else "?" ++ u.rawQuery

namespace http

/-- Go's `net/http.StatusOK`. -/
def StatusOK : Int := 200

/-- Go's `net/http.StatusCreated`. -/
def StatusCreated : Int := 201

/-- Go's `net/http.StatusNoContent`. -/
def StatusNoContent : Int := 204

end http

/-! ### Data model (`wikies.go` structs)

Types referenced from other files of the client (`IDName`,
`AttachmentObject`, `AttachmentUploadObject`) are not part of the given
source and are modelled from the spec. -/

/-- Modelled from the spec: `IDName`, the "author identity (id+name pair)";
its definition lives outside the given source file. -/
structure IDName where
  ID : Int
  Name : String

/-- Modelled from the spec: `AttachmentObject`, an "attachment record"; its
fields are defined outside the given source and are never inspected by the
wiki operations, so the record is kept as its raw JSON value. -/
structure AttachmentObject where
  raw : Json

/-- Modelled from the spec: `AttachmentUploadObject`, an "attachment upload
descriptor (each: filename, content token, optional content-type)"; its
definition lives outside the given source file.  An empty content-type
stands for an absent one. -/
structure AttachmentUploadObject where
  Token : String
  Filename : String
  ContentType : String

/-- `WikiParentObject` struct used for wikies get operations. -/
structure WikiParentObject where
  Title : String

/-- `WikiMultiObject` struct used for wikies all get operations. -/
structure WikiMultiObject where
  Title : String
  Parent : Option WikiParentObject
  Version : Int
  CreatedOn : String
  UpdatedOn : String

/-- `WikiObject` struct used for wiki get operations. -/
structure WikiObject where
  Title : String
  Parent : Option WikiParentObject
  Text : String
  Version : Int
  Author : IDName
  Comments : String
  CreatedOn : String
  UpdatedOn : String
  Attachments : Option (List AttachmentObject)

/-- `WikiCreateObject` struct used for wiki create operations. -/
structure WikiCreateObject where
  Text : String
  Comments : String
  Uploads : List AttachmentUploadObject

/-- `WikiUpdateObject` struct used for wiki update operations. -/
structure WikiUpdateObject where
  Text : String
  Comments : String
  Version : Int
  Uploads : List AttachmentUploadObject

/-- `WikiSingleGetRequest` contains data for making request to get
specified wiki. -/
structure WikiSingleGetRequest where
  Includes : List String

/-- Internal result wrapper `wikiAllResult` (`wiki_pages` key). -/
structure wikiAllResult where
  WikiPages : List WikiMultiObject

/-- Internal result wrapper `wikiSingleResult` (`wiki_page` key). -/
structure wikiSingleResult where
  WikiPage : WikiObject

/-- Internal request wrapper `wikiCreate` (`wiki_page` key). -/
structure wikiCreate where
  WikiPage : WikiCreateObject

/-- Internal request wrapper `wikiUpdate` (`wiki_page` key). -/
structure wikiUpdate where
  WikiPage : WikiUpdateObject

/-- Go zero value of `IDName`. -/
def IDName.goZero : IDName := ⟨0, ""⟩

/-- Go zero value of `WikiObject` (`var w wikiSingleResult` zero-initializes
its field): empty strings, zero version, nil pointers/slices. -/
def WikiObject.goZero : WikiObject :=
  ⟨"", none, "", 0, IDName.goZero, "", "", "", none⟩

/-- Go zero value of `wikiAllResult`: nil slice. -/
def wikiAllResult.goZero : wikiAllResult := ⟨[]⟩

/-- Go zero value of `wikiSingleResult`. -/
def wikiSingleResult.goZero : wikiSingleResult := ⟨WikiObject.goZero⟩

/-! ### Request marshaling

`encoding/json` serialization of the request wrappers, following the struct
tags of the source: fields in declaration order, a field with `omitempty`
omitted at its zero value (empty string, zero int, nil/empty slice). -/

/-- Modelled from the spec: JSON encoding of an attachment upload descriptor
(filename, content token, optional content-type); the struct and its tags
live outside the given source file. -/
def encodeAttachmentUpload (u : AttachmentUploadObject) : Json :=
  Json.obj ([("token", Json.str u.Token), ("filename", Json.str u.Filename)]
    ++ (if u.ContentType = "" then [] else [("content_type", Json.str u.ContentType)]))

/-- `encoding/json` marshaling of `WikiCreateObject` per its tags:
`text`, `comments,omitempty`, `uploads,omitempty`. -/
def encodeWikiCreateObject (c : WikiCreateObject) : Json :=
  Json.obj (("text", Json.str c.Text)
    :: (if c.Comments = "" then [] else [("comments", Json.str c.Comments)])
    ++ (if c.Uploads.isEmpty then []
        else [("uploads", Json.arr (c.Uploads.map encodeAttachmentUpload))]))

/-- `encoding/json` marshaling of `WikiUpdateObject` per its tags:
`text`, `comments,omitempty`, `version,omitempty`, `uploads,omitempty`. -/
def encodeWikiUpdateObject (u : WikiUpdateObject) : Json :=
  Json.obj (("text", Json.str u.Text)
    :: (if u.Comments = "" then [] else [("comments", Json.str u.Comments)])
    ++ (if u.Version = 0 then [] else [("version", Json.num u.Version)])
    ++ (if u.Uploads.isEmpty then []
        else [("uploads", Json.arr (u.Uploads.map encodeAttachmentUpload))]))

/-- `encoding/json` marshaling of the `wikiCreate` wrapper per its tag
`wiki_page`. -/
def encodeWikiCreate (x : wikiCreate) : Json :=
  Json.obj [("wiki_page", encodeWikiCreateObject x.WikiPage)]

/-- `encoding/json` marshaling of the `wikiUpdate` wrapper per its tag
`wiki_page`. -/
def encodeWikiUpdate (x : wikiUpdate) : Json :=
  Json.obj [("wiki_page", encodeWikiUpdateObject x.WikiPage)]

/-! ### Response unmarshaling

The transport decodes the response body into the destination struct with
`encoding/json` unmarshaling semantics: a present key overwrites the field
(failing on a type mismatch), an absent key leaves the field untouched,
`null` is a no-op except into pointers, which it sets to nil. -/

/-- Unmarshal a JSON value into a Go `string`. -/
def unmarshalString (j : Json) (cur : String) : Option String :=
  match j with
  | .str s => some s
  | .null => some cur
  | _ => none

/-- Unmarshal a JSON value into a Go `int`. -/
def unmarshalInt (j : Json) (cur : Int) : Option Int :=
  match j with
  | .num n => some n
  | .null => some cur
  | _ => none

/-- Unmarshal one struct field: absent key keeps the current value. -/
def unmarshalField {β : Type} (fields : List (String × Json)) (key : String)
    (dec : Json → β → Option β) (cur : β) : Option β :=
  match fields.lookup key with
  | none => some cur
  | some j => dec j cur

/-- Unmarshal a JSON value into an `IDName` (keys `id`, `name`, defined
outside the given source; modelled from the spec's "id+name pair"). -/
def unmarshalIDName (j : Json) (cur : IDName) : Option IDName :=
  match j with
  | .obj fs => do
      let i ← unmarshalField fs "id" unmarshalInt cur.ID
      let n ← unmarshalField fs "name" unmarshalString cur.Name
      some ⟨i, n⟩
  | .null => some cur
  | _ => none

/-- Unmarshal a JSON value into a `*WikiParentObject` (tag `title`);
`null` sets the pointer to nil. -/
def unmarshalParent (j : Json) (cur : Option WikiParentObject) :
    Option (Option WikiParentObject) :=
  match j with
  | .null => some none
  | .obj fs => do
      let t ← unmarshalField fs "title"
        unmarshalString ((cur.map WikiParentObject.Title).getD "")
      some (some ⟨t⟩)
  | _ => none

/-- Unmarshal a JSON value into a `*[]AttachmentObject`; `null` sets the
pointer to nil, an array replaces the slice (elements kept as raw JSON,
see `AttachmentObject`). -/
def unmarshalAttachments (j : Json) (_cur : Option (List AttachmentObject)) :
    Option (Option (List AttachmentObject)) :=
  match j with
  | .null => some none
  | .arr es => some (some (es.map AttachmentObject.mk))
  | _ => none

/-- Unmarshal a JSON value into a `WikiObject` per its tags: `title`,
`parent`, `text`, `version`, `author`, `comments`, `created_on`,
`updated_on`, `attachments`. -/
def unmarshalWikiObject (j : Json) (cur : WikiObject) : Option WikiObject :=
  match j with
  | .obj fs => do
      let title ← unmarshalField fs "title" unmarshalString cur.Title
      let parent ← unmarshalField fs "parent" unmarshalParent cur.Parent
      let text ← unmarshalField fs "text" unmarshalString cur.Text
      let version ← unmarshalField fs "version" unmarshalInt cur.Version
      let author ← unmarshalField fs "author" unmarshalIDName cur.Author
      let comments ← unmarshalField fs "comments" unmarshalString cur.Comments
      let createdOn ← unmarshalField fs "created_on" unmarshalString cur.CreatedOn
      let updatedOn ← unmarshalField fs "updated_on" unmarshalString cur.UpdatedOn
      let attachments ← unmarshalField fs "attachments" unmarshalAttachments cur.Attachments
      some ⟨title, parent, text, version, author, comments, createdOn, updatedOn, attachments⟩
  | .null => some cur
  | _ => none

/-- Unmarshal a response body into a `wikiSingleResult` per its tag
`wiki_page`. -/
def unmarshalWikiSingleResult (j : Json) (cur : wikiSingleResult) :
    Option wikiSingleResult :=
  match j with
  | .obj fs => do
      let w ← unmarshalField fs "wiki_page" unmarshalWikiObject cur.WikiPage
      some ⟨w⟩
  | .null => some cur
  | _ => none

/-! ### Transport collaborator and call traces -/

/-- HTTP verb of a transport call. -/
inductive Verb where
  | get : Verb
  | put : Verb
  | del : Verb
deriving DecidableEq

/-- One transport call as observed at the collaborator boundary: verb, URL,
serialized request body (if any) and the expected success status passed in. -/
structure Call where
  verb : Verb
  url : URL
  body : Option Json
  expectedStatus : Int

/-- Modelled from the spec: the transport collaborator (`Context` with
methods `Get(destination, url, expectedStatus)`,
`Put(body, destination, url, expectedStatus)` and
`Delete(destination, body, url, expectedStatus)`, defined outside the given
source), which marshals the request value, performs the call, decodes the
response into the destination and returns `(status, error)`.  The Go methods
are generic in the destination; the embedding specializes them at the
destination types the wiki operations use (`wikiAllResult`,
`wikiSingleResult`, and none), keeps them fully abstract otherwise, and
takes each method's result as the final destination value together with the
status and error (a Go `error`, modelled as `Option String` with `none` for
nil).  For `Put`, the marshaled body is passed in serialized form so that
the wire body is observable. -/
structure Context where
  GetAll : wikiAllResult → URL → Int → wikiAllResult × Int × Option String
  GetSingle : wikiSingleResult → URL → Int → wikiSingleResult × Int × Option String
  PutSingle : Json → wikiSingleResult → URL → Int → wikiSingleResult × Int × Option String
  PutNone : Json → URL → Int → Int × Option String
  Del : URL → Int → Int × Option String

/-- Modelled from the spec: the `urlIncludes` helper (defined outside the
given source) serializes the include-set "as a repeated/comma-joined query
parameter": a nonempty include-set is joined with commas into a single
`include` parameter; an empty include-set adds nothing, so that an "empty
include-set produces no query string". -/
def urlIncludes (urlParams : Values) (includes : List String) : Values :=
  if includes.isEmpty then urlParams
  else Values.add urlParams "include" (String.intercalate "," includes)

/-! ### The six wiki operations

Each Lean function mirrors the body of the corresponding Go function:
zero-initialize the destination, build the `url.URL` from verbatim string
concatenation of the caller-supplied segments, perform the single transport
call, and return its results unchanged.  The second component of the result
is the embedding's trace of transport calls issued (here always exactly
one, read off the single `r.Get`/`r.Put`/`r.Del` line of the Go body). -/

/-- `WikiAllGet` gets info for all wikies for project with specified ID. -/
def WikiAllGet (r : Context) (projectID : String) :
    (List WikiMultiObject × Int × Option String) × List Call :=
  let w := wikiAllResult.goZero
  let ur : URL := { path := "/projects/" ++ projectID ++ "/wiki/index.json",
                    rawQuery := "" }
  let res := r.GetAll w ur http.StatusOK
  ((res.1.WikiPages, res.2.1, res.2.2),
    [{ verb := Verb.get, url := ur, body := none,
       expectedStatus := http.StatusOK }])

/-- `WikiSingleGet` gets single wiki info by specific project ID and wiki
title. -/
def WikiSingleGet (r : Context) (projectID wikiTitle : String)
    (request : WikiSingleGetRequest) :
    (WikiObject × Int × Option String) × List Call :=
  let w := wikiSingleResult.goZero
  let urlParams := urlIncludes Values.empty request.Includes
  let ur : URL := { path := "/projects/" ++ projectID ++ "/wiki/" ++ wikiTitle ++ ".json",
                    rawQuery := Values.encode urlParams }
  let res := r.GetSingle w ur http.StatusOK
  ((res.1.WikiPage, res.2.1, res.2.2),
    [{ verb := Verb.get, url := ur, body := none,
       expectedStatus := http.StatusOK }])

/-- `WikiSingleVersionGet` gets single wiki info by specific project ID,
wiki title and version. -/
def WikiSingleVersionGet (r : Context) (projectID wikiTitle : String)
    (version : Int) (request : WikiSingleGetRequest) :
    (WikiObject × Int × Option String) × List Call :=
  let w := wikiSingleResult.goZero
  let urlParams := urlIncludes Values.empty request.Includes
  let ur : URL := { path := "/projects/" ++ projectID ++ "/wiki/" ++ wikiTitle
                      ++ "/" ++ toString version ++ ".json",
                    rawQuery := Values.encode urlParams }
  let res := r.GetSingle w ur http.StatusOK
  ((res.1.WikiPage, res.2.1, res.2.2),
    [{ verb := Verb.get, url := ur, body := none,
       expectedStatus := http.StatusOK }])

/-- `WikiCreate` creates new wiki. -/
def WikiCreate (r : Context) (projectID wikiTitle : String)
    (wiki : WikiCreateObject) :
    (WikiObject × Int × Option String) × List Call :=
  let w := wikiSingleResult.goZero
  let ur : URL := { path := "/projects/" ++ projectID ++ "/wiki/" ++ wikiTitle ++ ".json",
                    rawQuery := "" }
  let body := encodeWikiCreate { WikiPage := wiki }
  let res := r.PutSingle body w ur http.StatusCreated
  ((res.1.WikiPage, res.2.1, res.2.2),
    [{ verb := Verb.put, url := ur, body := some body,
       expectedStatus := http.StatusCreated }])

/-- `WikiUpdate` updates wiki page. -/
def WikiUpdate (r : Context) (projectID wikiTitle : String)
    (wiki : WikiUpdateObject) : (Int × Option String) × List Call :=
  let ur : URL := { path := "/projects/" ++ projectID ++ "/wiki/" ++ wikiTitle ++ ".json",
                    rawQuery := "" }
  let body := encodeWikiUpdate { WikiPage := wiki }
  let res := r.PutNone body ur http.StatusNoContent
  ((res.1, res.2),
    [{ verb := Verb.put, url := ur, body := some body,
       expectedStatus := http.StatusNoContent }])

/-- `WikiDelete` deletes wiki with specified project ID and title. -/
def WikiDelete (r : Context) (projectID wikiTitle : String) :
    (Int × Option String) × List Call :=
  let ur : URL := { path := "/projects/" ++ projectID ++ "/wiki/" ++ wikiTitle ++ ".json",
                    rawQuery := "" }
  let res := r.Del ur http.StatusNoContent
  ((res.1, res.2),
    [{ verb := Verb.del, url := ur, body := none,
       expectedStatus := http.StatusNoContent }])

/-! ### Mock transports used to exercise the operations at concrete inputs -/

/-- A mock transport: list answers one fixed page, single get echoes the
zero-initialized destination, create answers the decoded "Home"/"Hello"
page with 201, update answers 204, delete answers 500 — all with nil
error. -/
def mockCtx : Context where
  GetAll := fun _ _ _ =>
    (⟨[⟨"Home", none, 1, "2024-01-01", "2024-01-02"⟩]⟩, 200, none)
  GetSingle := fun d _ _ => (d, 200, none)
  PutSingle := fun _ _ _ _ =>
    (⟨⟨"Home", none, "Hello", 1, IDName.goZero, "", "", "", none⟩⟩, 201, none)
  PutNone := fun _ _ _ => (204, none)
  Del := fun _ _ => (500, none)

/-- A mock transport whose every method reports a failure while still having
left a (possibly partially decoded) value in the destination. -/
def errCtx : Context where
  GetAll := fun _ _ _ =>
    (⟨[⟨"Home", none, 1, "2024-01-01", "2024-01-02"⟩]⟩, 500, some "connection reset")
  GetSingle := fun d _ _ => (d, 0, some "decode failure")
  PutSingle := fun _ _ _ _ =>
    (⟨⟨"Stale", none, "", 2, IDName.goZero, "", "", "", none⟩⟩, 422, some "unprocessable")
  PutNone := fun _ _ _ => (0, some "eof")
  Del := fun _ _ => (0, some "eof")

/-! ### Theorems -/

/-- C1: every wiki operation returns the (status, error) pair produced by
its single transport call unchanged; in particular a status differing from
the operation's expected success status is never by itself turned into a
non-nil error by this layer. -/
theorem wiki_ops_pass_through_status_and_error
    (r : Context) (projectID wikiTitle : String) (version : Int)
    (request : WikiSingleGetRequest) (cw : WikiCreateObject) (uw : WikiUpdateObject)
    (w1 : wikiAllResult) (w2 w3 w4 : wikiSingleResult)
    (s1 s2 s3 s4 s5 s6 : Int) (e1 e2 e3 e4 e5 e6 : Option String)
    (h1 : r.GetAll wikiAllResult.goZero
      ⟨"/projects/" ++ projectID ++ "/wiki/index.json", ""⟩
      http.StatusOK = (w1, s1, e1))
    (h2 : r.GetSingle wikiSingleResult.goZero
      ⟨"/projects/" ++ projectID ++ "/wiki/" ++ wikiTitle ++ ".json",
        Values.encode (urlIncludes Values.empty request.Includes)⟩
      http.StatusOK = (w2, s2, e2))
    (h3 : r.GetSingle wikiSingleResult.goZero
      ⟨"/projects/" ++ projectID ++ "/wiki/" ++ wikiTitle ++ "/"
          ++ toString version ++ ".json",
        Values.encode (urlIncludes Values.empty request.Includes)⟩
      http.StatusOK = (w3, s3, e3))
    (h4 : r.PutSingle (encodeWikiCreate { WikiPage := cw }) wikiSingleResult.goZero
      ⟨"/projects/" ++ projectID ++ "/wiki/" ++ wikiTitle ++ ".json", ""⟩
      http.StatusCreated = (w4, s4, e4))
    (h5 : r.PutNone (encodeWikiUpdate { WikiPage := uw })
      ⟨"/projects/" ++ projectID ++ "/wiki/" ++ wikiTitle ++ ".json", ""⟩
      http.StatusNoContent = (s5, e5))
    (h6 : r.Del ⟨"/projects/" ++ projectID ++ "/wiki/" ++ wikiTitle ++ ".json", ""⟩
      http.StatusNoContent = (s6, e6)) :
    (WikiAllGet r projectID).1.2 = (s1, e1)
    ∧ (WikiSingleGet r projectID wikiTitle request).1.2 = (s2, e2)
    ∧ (WikiSingleVersionGet r projectID wikiTitle version request).1.2 = (s3, e3)
    ∧ (WikiCreate r projectID wikiTitle cw).1.2 = (s4, e4)
    ∧ (WikiUpdate r projectID wikiTitle uw).1 = (s5, e5)
    ∧ (WikiDelete r projectID wikiTitle).1 = (s6, e6) := by
  refine ⟨?_, ?_, ?_, ?_, ?_, ?_⟩ <;>
    simp [WikiAllGet, WikiSingleGet, WikiSingleVersionGet, WikiCreate,
      WikiUpdate, WikiDelete, h1, h2, h3, h4, h5, h6]

/-- C1 witness: the pass-through evaluated on a mock transport; in
particular delete against a transport answering status 500 with nil error
returns (500, nil error). -/
theorem wiki_ops_pass_through_status_and_error_witness :
    (WikiAllGet mockCtx "p1").1.2 = (200, none)
    ∧ (WikiSingleGet mockCtx "p1" "Home" ⟨[]⟩).1.2 = (200, none)
    ∧ (WikiSingleVersionGet mockCtx "p1" "Home" 2 ⟨[]⟩).1.2 = (200, none)
    ∧ (WikiCreate mockCtx "p1" "Home" ⟨"Hello", "", []⟩).1.2 = (201, none)
    ∧ (WikiUpdate mockCtx "p1" "Home" ⟨"Hello", "", 0, []⟩).1 = (204, none)
    ∧ (WikiDelete mockCtx "p1" "Home").1 = (500, none) :=
  wiki_ops_pass_through_status_and_error mockCtx "p1" "Home" 2 ⟨[]⟩
    ⟨"Hello", "", []⟩ ⟨"Hello", "", 0, []⟩
    ⟨[⟨"Home", none, 1, "2024-01-01", "2024-01-02"⟩]⟩
    wikiSingleResult.goZero wikiSingleResult.goZero
    ⟨⟨"Home", none, "Hello", 1, IDName.goZero, "", "", "", none⟩⟩
    200 200 200 201 204 500 none none none none none none
    rfl rfl rfl rfl rfl rfl

/-- C2: each operation issues exactly one transport call, with the fixed
verb and expected success status of its table row (list/get/get-version:
GET 200; create: PUT 201; update: PUT 204; delete: DELETE 204), and the
operations without an output body (update, delete) return exactly the
transport's (status, error) pair and no decoded body. -/
theorem wiki_ops_single_call_fixed_verb_status
    (r : Context) (projectID wikiTitle : String) (version : Int)
    (request : WikiSingleGetRequest) (cw : WikiCreateObject) (uw : WikiUpdateObject) :
    (WikiAllGet r projectID).2
      = [⟨Verb.get, ⟨"/projects/" ++ projectID ++ "/wiki/index.json", ""⟩, none, 200⟩]
    ∧ (WikiSingleGet r projectID wikiTitle request).2
      = [⟨Verb.get,
          ⟨"/projects/" ++ projectID ++ "/wiki/" ++ wikiTitle ++ ".json",
            Values.encode (urlIncludes Values.empty request.Includes)⟩, none, 200⟩]
    ∧ (WikiSingleVersionGet r projectID wikiTitle version request).2
      = [⟨Verb.get,
          ⟨"/projects/" ++ projectID ++ "/wiki/" ++ wikiTitle ++ "/"
              ++ toString version ++ ".json",
            Values.encode (urlIncludes Values.empty request.Includes)⟩, none, 200⟩]
    ∧ (WikiCreate r projectID wikiTitle cw).2
      = [⟨Verb.put, ⟨"/projects/" ++ projectID ++ "/wiki/" ++ wikiTitle ++ ".json", ""⟩,
          some (encodeWikiCreate { WikiPage := cw }), 201⟩]
    ∧ (WikiUpdate r projectID wikiTitle uw).2
      = [⟨Verb.put, ⟨"/projects/" ++ projectID ++ "/wiki/" ++ wikiTitle ++ ".json", ""⟩,
          some (encodeWikiUpdate { WikiPage := uw }), 204⟩]
    ∧ (WikiDelete r projectID wikiTitle).2
      = [⟨Verb.del, ⟨"/projects/" ++ projectID ++ "/wiki/" ++ wikiTitle ++ ".json", ""⟩,
          none, 204⟩]
    ∧ (WikiUpdate r projectID wikiTitle uw).1
      = r.PutNone (encodeWikiUpdate { WikiPage := uw })
          ⟨"/projects/" ++ projectID ++ "/wiki/" ++ wikiTitle ++ ".json", ""⟩
          http.StatusNoContent
    ∧ (WikiDelete r projectID wikiTitle).1
      = r.Del ⟨"/projects/" ++ projectID ++ "/wiki/" ++ wikiTitle ++ ".json", ""⟩
          http.StatusNoContent :=
  ⟨rfl, rfl, rfl, rfl, rfl, rfl, rfl, rfl⟩

/-- C3: every operation builds its resource path by verbatim string
concatenation of the caller-supplied segments into the path templates, for
every `projectID` and `wikiTitle` — no escaping is applied by this layer,
as the concrete conjuncts with `/`, `?`, space and `&` inside the segments
show. -/
theorem wiki_paths_verbatim_concatenation
    (r : Context) (projectID wikiTitle : String) (version : Int)
    (request : WikiSingleGetRequest) (cw : WikiCreateObject) (uw : WikiUpdateObject) :
    ((WikiAllGet r projectID).2.map (fun c => c.url.path))
      = ["/projects/" ++ projectID ++ "/wiki/index.json"]
    ∧ ((WikiSingleGet r projectID wikiTitle request).2.map (fun c => c.url.path))
      = ["/projects/" ++ projectID ++ "/wiki/" ++ wikiTitle ++ ".json"]
    ∧ ((WikiSingleVersionGet r projectID wikiTitle version request).2.map (fun c => c.url.path))
      = ["/projects/" ++ projectID ++ "/wiki/" ++ wikiTitle ++ "/"
          ++ toString version ++ ".json"]
    ∧ ((WikiCreate r projectID wikiTitle cw).2.map (fun c => c.url.path))
      = ["/projects/" ++ projectID ++ "/wiki/" ++ wikiTitle ++ ".json"]
    ∧ ((WikiUpdate r projectID wikiTitle uw).2.map (fun c => c.url.path))
      = ["/projects/" ++ projectID ++ "/wiki/" ++ wikiTitle ++ ".json"]
    ∧ ((WikiDelete r projectID wikiTitle).2.map (fun c => c.url.path))
      = ["/projects/" ++ projectID ++ "/wiki/" ++ wikiTitle ++ ".json"]
    ∧ ((WikiSingleGet r "a/b" "c?d e&f" ⟨[]⟩).2.map (fun c => c.url.path))
      = ["/projects/a/b/wiki/c?d e&f.json"]
    ∧ ((WikiAllGet r "p?x=1/../y").2.map (fun c => c.url.path))
      = ["/projects/p?x=1/../y/wiki/index.json"] := by
  refine ⟨rfl, rfl, rfl, rfl, rfl, rfl, ?_, ?_⟩ <;> simp [WikiSingleGet, WikiAllGet]

/-- C7: `WikiAllGet` returns exactly the sequence of `WikiMultiObject`
values the transport decoded into the destination — same elements, same
order, with no reordering, filtering or insertion. -/
theorem wikiAllGet_returns_decoded_sequence
    (r : Context) (projectID : String) (pages : List WikiMultiObject)
    (s : Int) (e : Option String)
    (h : r.GetAll wikiAllResult.goZero
      ⟨"/projects/" ++ projectID ++ "/wiki/index.json", ""⟩
      http.StatusOK = (⟨pages⟩, s, e)) :
    (WikiAllGet r projectID).1.1 = pages := by
  simp [WikiAllGet, h]

/-- C7 witness: against the mock transport decoding one fixed page, the
list operation returns exactly that page. -/
theorem wikiAllGet_returns_decoded_sequence_witness :
    (WikiAllGet mockCtx "p1").1.1
      = [⟨"Home", none, 1, "2024-01-01", "2024-01-02"⟩] :=
  wikiAllGet_returns_decoded_sequence mockCtx "p1"
    [⟨"Home", none, 1, "2024-01-01", "2024-01-02"⟩] 200 none rfl

/-- C8: `WikiSingleVersionGet` builds the path
`/projects/{projectID}/wiki/{wikiTitle}/{version}.json` with the version
rendered in decimal (`toString` of the integer, as the concrete conjuncts
at 57 and -3 show), attaches the serialized include-set as the query
string, and issues a single GET with expected status 200. -/
theorem wikiSingleVersionGet_call_shape
    (r : Context) (projectID wikiTitle : String) (version : Int)
    (request : WikiSingleGetRequest) :
    (WikiSingleVersionGet r projectID wikiTitle version request).2
      = [⟨Verb.get,
          ⟨"/projects/" ++ projectID ++ "/wiki/" ++ wikiTitle ++ "/"
              ++ toString version ++ ".json",
            Values.encode (urlIncludes Values.empty request.Includes)⟩,
          none, http.StatusOK⟩]
    ∧ ((WikiSingleVersionGet r "p1" "Home" 57 ⟨["attachments"]⟩).2.map
        (fun c => c.url))
      = [⟨"/projects/p1/wiki/Home/57.json", "include=attachments"⟩]
    ∧ ((WikiSingleVersionGet r "p1" "Home" (-3) ⟨[]⟩).2.map (fun c => c.url))
      = [⟨"/projects/p1/wiki/Home/-3.json", ""⟩] :=
  ⟨rfl, rfl, rfl⟩

/-- C6: for `WikiSingleGet` and `WikiSingleVersionGet`, an include-set of
exactly `["attachments"]` makes the built URL carry the query string
`include=attachments` (the literal value of the comma-joined `include`
parameter), and an empty include-set yields an empty raw query, so the
rendered URL has no `?` component at all. -/
theorem wiki_includes_query_serialization
    (r : Context) (projectID wikiTitle : String) (version : Int) :
    ((WikiSingleGet r projectID wikiTitle ⟨["attachments"]⟩).2.map
        (fun c => c.url.rawQuery)) = ["include=attachments"]
    ∧ ((WikiSingleVersionGet r projectID wikiTitle version ⟨["attachments"]⟩).2.map
        (fun c => c.url.rawQuery)) = ["include=attachments"]
    ∧ ((WikiSingleGet r projectID wikiTitle ⟨[]⟩).2.map
        (fun c => c.url.rawQuery)) = [""]
    ∧ ((WikiSingleVersionGet r projectID wikiTitle version ⟨[]⟩).2.map
        (fun c => c.url.rawQuery)) = [""]
    ∧ ((WikiSingleGet r projectID wikiTitle ⟨[]⟩).2.map
        (fun c => c.url.queryString)) = [""]
    ∧ ((WikiSingleVersionGet r projectID wikiTitle version ⟨[]⟩).2.map
        (fun c => c.url.queryString)) = [""] :=
  ⟨rfl, rfl, rfl, rfl, rfl, rfl⟩

/-- C9: in the serialized update body the `version` field is omitted
exactly when `Version = 0` (json `omitempty` on an int) and carries the
value otherwise; likewise `comments` is omitted exactly when empty and
`uploads` exactly when the slice is empty/nil, in both the create and the
update bodies. -/
theorem wiki_body_omitempty_fields (c : WikiCreateObject) (u : WikiUpdateObject) :
    (encodeWikiUpdateObject u).getField "version"
      = (if u.Version = 0 then none else some (Json.num u.Version))
    ∧ (encodeWikiUpdateObject u).getField "comments"
      = (if u.Comments = "" then none else some (Json.str u.Comments))
    ∧ (encodeWikiUpdateObject u).getField "uploads"
      = (if u.Uploads.isEmpty then none
         else some (Json.arr (u.Uploads.map encodeAttachmentUpload)))
    ∧ (encodeWikiCreateObject c).getField "comments"
      = (if c.Comments = "" then none else some (Json.str c.Comments))
    ∧ (encodeWikiCreateObject c).getField "uploads"
      = (if c.Uploads.isEmpty then none
         else some (Json.arr (c.Uploads.map encodeAttachmentUpload)))
    ∧ (encodeWikiUpdateObject u).getField "text" = some (Json.str u.Text)
    ∧ (encodeWikiCreateObject c).getField "text" = some (Json.str c.Text) := by
  refine ⟨?_, ?_, ?_, ?_, ?_, ?_, ?_⟩ <;>
    · simp only [encodeWikiUpdateObject, encodeWikiCreateObject, Json.getField]
      split_ifs <;> simp [List.lookup]

/-- C4 counterexample: for the create request with text "Hello" and no
optional fields, the PUT body actually sent is
`{"wiki_page":{"text":"Hello"}}`, not the top-level `{"text":"Hello"}` the
claim describes — there is no top-level `text` member at all. -/
theorem wikiCreate_body_not_top_level :
    encodeWikiCreate { WikiPage := { Text := "Hello", Comments := "", Uploads := [] } }
      = Json.obj [("wiki_page", Json.obj [("text", Json.str "Hello")])]
    ∧ encodeWikiCreate { WikiPage := { Text := "Hello", Comments := "", Uploads := [] } }
      ≠ Json.obj [("text", Json.str "Hello")]
    ∧ (encodeWikiCreate { WikiPage := { Text := "Hello", Comments := "", Uploads := [] } }).getField
        "text" = none
    ∧ encodeWikiUpdate { WikiPage := { Text := "Hi", Comments := "", Version := 2, Uploads := [] } }
      = Json.obj [("wiki_page",
          Json.obj [("text", Json.str "Hi"), ("version", Json.num 2)])]
    ∧ (encodeWikiUpdate { WikiPage := { Text := "Hi", Comments := "", Version := 2, Uploads := [] } }).getField
        "text" = none := by
  refine ⟨rfl, ?_, rfl, rfl, rfl⟩
  intro h
  simp [encodeWikiCreate, encodeWikiCreateObject] at h

/-- C4 (amended): the JSON bodies sent by `WikiCreate` and `WikiUpdate`
are `{"wiki_page":{text, comments?, uploads?}}` and
`{"wiki_page":{text, comments?, version?, uploads?}}` respectively: the
fields listed in the spec appear inside the top-level `wiki_page` wrapper
object (optional fields omitted when empty), not at the top level of the
PUT body. -/
theorem wiki_put_bodies_wrapped_in_wiki_page
    (r : Context) (projectID wikiTitle : String)
    (cw : WikiCreateObject) (uw : WikiUpdateObject) :
    ((WikiCreate r projectID wikiTitle cw).2.map (fun c => c.body))
      = [some (Json.obj [("wiki_page", encodeWikiCreateObject cw)])]
    ∧ ((WikiUpdate r projectID wikiTitle uw).2.map (fun c => c.body))
      = [some (Json.obj [("wiki_page", encodeWikiUpdateObject uw)])]
    ∧ (encodeWikiCreateObject cw).keys
      = "text" :: ((if cw.Comments = "" then [] else ["comments"])
          ++ (if cw.Uploads.isEmpty then [] else ["uploads"]))
    ∧ (encodeWikiUpdateObject uw).keys
      = "text" :: ((if uw.Comments = "" then [] else ["comments"])
          ++ (if uw.Version = 0 then [] else ["version"])
          ++ (if uw.Uploads.isEmpty then [] else ["uploads"])) := by
  refine ⟨rfl, rfl, ?_, ?_⟩ <;>
    · simp only [encodeWikiCreateObject, encodeWikiUpdateObject, Json.keys]
      split_ifs <;> simp

/-- C5: if the transport fills the destination by decoding the response
body `{"wiki_page":{"title":T,"text":X,"version":V}}` and reports status
201 with nil error, then `WikiCreate` returns the inner `wiki_page` object
unwrapped — a `WikiObject` with `Title = T`, `Text = X`, `Version = V` —
together with status 201 and nil error. -/
theorem wikiCreate_unwraps_wiki_page
    (r : Context) (projectID wikiTitle : String) (wiki : WikiCreateObject)
    (T X : String) (V : Int) (w : wikiSingleResult)
    (hdec : unmarshalWikiSingleResult
        (Json.obj [("wiki_page",
          Json.obj [("title", Json.str T), ("text", Json.str X),
                    ("version", Json.num V)])])
        wikiSingleResult.goZero = some w)
    (htr : r.PutSingle (encodeWikiCreate { WikiPage := wiki })
        wikiSingleResult.goZero
        ⟨"/projects/" ++ projectID ++ "/wiki/" ++ wikiTitle ++ ".json", ""⟩
        http.StatusCreated = (w, 201, none)) :
    (WikiCreate r projectID wikiTitle wiki).1 = (w.WikiPage, 201, none)
    ∧ w.WikiPage.Title = T ∧ w.WikiPage.Text = X ∧ w.WikiPage.Version = V := by
  have hw : some (⟨⟨T, none, X, V, IDName.goZero, "", "", "", none⟩⟩ : wikiSingleResult)
      = some w := hdec
  have hw' : w = ⟨⟨T, none, X, V, IDName.goZero, "", "", "", none⟩⟩ :=
    (Option.some.injEq _ _ ▸ hw).symm
  subst hw'
  exact ⟨by simp [WikiCreate, htr], rfl, rfl, rfl⟩

/-- C5 witness: creating "Home" with text "Hello" against the mock
transport that decodes `{"wiki_page":{"title":"Home","text":"Hello",
"version":1}}` and answers 201 returns that page unwrapped with status 201
and nil error. -/
theorem wikiCreate_unwraps_wiki_page_witness :
    (WikiCreate mockCtx "p1" "Home" ⟨"Hello", "", []⟩).1
      = ((⟨⟨"Home", none, "Hello", 1, IDName.goZero, "", "", "", none⟩⟩ :
          wikiSingleResult).WikiPage, 201, none)
    ∧ (⟨⟨"Home", none, "Hello", 1, IDName.goZero, "", "", "", none⟩⟩ :
        wikiSingleResult).WikiPage.Title = "Home"
    ∧ (⟨⟨"Home", none, "Hello", 1, IDName.goZero, "", "", "", none⟩⟩ :
        wikiSingleResult).WikiPage.Text = "Hello"
    ∧ (⟨⟨"Home", none, "Hello", 1, IDName.goZero, "", "", "", none⟩⟩ :
        wikiSingleResult).WikiPage.Version = 1 :=
  wikiCreate_unwraps_wiki_page mockCtx "p1" "Home" ⟨"Hello", "", []⟩
    "Home" "Hello" 1
    ⟨⟨"Home", none, "Hello", 1, IDName.goZero, "", "", "", none⟩⟩ rfl rfl

/-- C10: when the transport reports a non-nil error, the value-returning
operations still return whatever the destination holds (zero value or
partially/fully decoded) alongside the status and error — the result value
is never suppressed or reset on error. -/
theorem wiki_ops_return_dest_on_error
    (r : Context) (projectID wikiTitle : String) (version : Int)
    (request : WikiSingleGetRequest) (cw : WikiCreateObject)
    (w1 : wikiAllResult) (w2 w3 w4 : wikiSingleResult)
    (s1 s2 s3 s4 : Int) (e1 e2 e3 e4 : String)
    (h1 : r.GetAll wikiAllResult.goZero
      ⟨"/projects/" ++ projectID ++ "/wiki/index.json", ""⟩
      http.StatusOK = (w1, s1, some e1))
    (h2 : r.GetSingle wikiSingleResult.goZero
      ⟨"/projects/" ++ projectID ++ "/wiki/" ++ wikiTitle ++ ".json",
        Values.encode (urlIncludes Values.empty request.Includes)⟩
      http.StatusOK = (w2, s2, some e2))
    (h3 : r.GetSingle wikiSingleResult.goZero
      ⟨"/projects/" ++ projectID ++ "/wiki/" ++ wikiTitle ++ "/"
          ++ toString version ++ ".json",
        Values.encode (urlIncludes Values.empty request.Includes)⟩
      http.StatusOK = (w3, s3, some e3))
    (h4 : r.PutSingle (encodeWikiCreate { WikiPage := cw }) wikiSingleResult.goZero
      ⟨"/projects/" ++ projectID ++ "/wiki/" ++ wikiTitle ++ ".json", ""⟩
      http.StatusCreated = (w4, s4, some e4)) :
    (WikiAllGet r projectID).1 = (w1.WikiPages, s1, some e1)
    ∧ (WikiSingleGet r projectID wikiTitle request).1 = (w2.WikiPage, s2, some e2)
    ∧ (WikiSingleVersionGet r projectID wikiTitle version request).1
      = (w3.WikiPage, s3, some e3)
    ∧ (WikiCreate r projectID wikiTitle cw).1 = (w4.WikiPage, s4, some e4) := by
  refine ⟨?_, ?_, ?_, ?_⟩ <;>
    simp [WikiAllGet, WikiSingleGet, WikiSingleVersionGet, WikiCreate,
      h1, h2, h3, h4]

/-- C10 witness: against a failing mock transport, the list operation
still returns the decoded page with its error, the single get returns the
zero-valued page, and create returns the partially decoded page. -/
theorem wiki_ops_return_dest_on_error_witness :
    (WikiAllGet errCtx "p1").1
      = ([⟨"Home", none, 1, "2024-01-01", "2024-01-02"⟩], 500, some "connection reset")
    ∧ (WikiSingleGet errCtx "p1" "Home" ⟨[]⟩).1
      = (WikiObject.goZero, 0, some "decode failure")
    ∧ (WikiSingleVersionGet errCtx "p1" "Home" 2 ⟨[]⟩).1
      = (WikiObject.goZero, 0, some "decode failure")
    ∧ (WikiCreate errCtx "p1" "Home" ⟨"Hello", "", []⟩).1
      = (⟨"Stale", none, "", 2, IDName.goZero, "", "", "", none⟩, 422, some "unprocessable") :=
  wiki_ops_return_dest_on_error errCtx "p1" "Home" 2 ⟨[]⟩ ⟨"Hello", "", []⟩
    ⟨[⟨"Home", none, 1, "2024-01-01", "2024-01-02"⟩]⟩
    wikiSingleResult.goZero wikiSingleResult.goZero
    ⟨⟨"Stale", none, "", 2, IDName.goZero, "", "", "", none⟩⟩
    500 0 0 422 "connection reset" "decode failure" "decode failure" "unprocessable"
    rfl rfl rfl rfl
